import Mathlib

/-!
Verification of the weekend-helper agent (src/agent_fun.py, src/server_fun.py).

The development shallowly embeds the agent's pure logic:

* `Json` models the Python values produced by `json.loads` (restricted to the
  fragment this program exchanges: objects, arrays, strings, integers,
  booleans, null; floats and exponents are not used by the program and are
  not modelled).
* `json_loads` / `json_dumps` model the strict `json.loads` parse and the
  default `json.dumps` serialisation (separators `", "` and `": "`,
  `ensure_ascii=True`).
* `llm_json`, `to_plain_text`, `summarize_tool_result` are translated
  directly from src/agent_fun.py.
* `stepBody` / `runLoop` / `runGeneralTurn` / `handleInput` embed the body of
  `main`'s per-turn control flow; the network boundaries (the `chat` call and
  `session.call_tool`) are oracles `Nat → Except String String` giving, for
  the n-th call, either the returned text (`Except.ok`) or the message of a
  raised exception (`Except.error`).

Python exceptions that the source does not catch are surfaced as `PyErr`
values in the resulting state; a `some` in the `exn` field means the
exception escapes the control loop.
-/

/-- JSON values as produced by Python's `json.loads`, restricted to the
fragment exchanged by this program (integers instead of arbitrary numbers).
Objects keep Python's `dict` insertion order with unique keys. -/
inductive Json where
  | null
  | bool (b : Bool)
  | num (n : Int)
  | str (s : String)
  | arr (xs : List Json)
  | obj (kvs : List (String × Json))

/-- Lookup in an object's key/value list; models `dict` access (keys are
unique because parsing inserts with `dinsert`). -/
def dictFind : List (String × Json) → String → Option Json
  | [], _ => none
  | (k, v) :: rest, key => if k == key then some v else dictFind rest key

/-- Insertion with Python `dict` semantics: a repeated key overwrites the
value in place, a new key is appended. -/
def dinsert : List (String × Json) → String → Json → List (String × Json)
  | [], k, v => [(k, v)]
  | (k2, v2) :: rest, k, v =>
    if k2 == k then (k2, v) :: rest else (k2, v2) :: dinsert rest k v

/-- Python type name of a value, as it appears in error messages. -/
def pyTypeName : Json → String
  | Json.null => "NoneType"
  | Json.bool _ => "bool"
  | Json.num _ => "int"
  | Json.str _ => "str"
  | Json.arr _ => "list"
  | Json.obj _ => "dict"

/-- Python truthiness of a parsed JSON value. -/
def truthy : Json → Bool
  | Json.null => false
  | Json.bool b => b
  | Json.num n => n != 0
  | Json.str s => s != ""
  | Json.arr xs => !xs.isEmpty
  | Json.obj kvs => !kvs.isEmpty

/-- Whether a value is hashable in Python (usable as a `set` element). -/
def pyHashable : Json → Bool
  | Json.arr _ => false
  | Json.obj _ => false
  | _ => true

/-! Python string helpers -/

/-- The characters removed by Python's `str.strip()`. -/
def pyIsSpace (c : Char) : Bool :=
  c == ' ' || c == '\t' || c == '\n' || c == '\r' || c == '\x0b' || c == '\x0c'

/-- Python `str.strip()`. -/
def pyStrip (s : String) : String :=
  String.mk (((s.data.dropWhile pyIsSpace).reverse.dropWhile pyIsSpace).reverse)

/-- Python `str.lower()` (the program only lowercases ASCII input). -/
def pyLower (s : String) : String :=
  String.mk (s.data.map Char.toLower)

/-- Prefix test on character lists. -/
def listStartsWith : List Char → List Char → Bool
  | [], _ => true
  | _ :: _, [] => false
  | a :: as, b :: bs => a == b && listStartsWith as bs

/-- Substring occurrence on character lists. -/
def listHasSub (needle : List Char) : List Char → Bool
  | [] => needle.isEmpty
  | c :: rest => listStartsWith needle (c :: rest) || listHasSub needle rest

/-- Python's `needle in hay` on strings. -/
def strContains (hay needle : String) : Bool :=
  listHasSub needle.data hay.data

/-! Model of `json.loads` -/

/-- JSON whitespace (the only characters `json.loads` skips around tokens). -/
def jsonWs (c : Char) : Bool :=
  c == ' ' || c == '\t' || c == '\n' || c == '\r'

/-- Skip JSON whitespace. -/
def skipWs : List Char → List Char
  | [] => []
  | c :: cs => if jsonWs c then skipWs cs else c :: cs

/-- Value of a hexadecimal digit. -/
def hexDigitVal (c : Char) : Option Nat :=
  if '0' ≤ c ∧ c ≤ '9' then some (c.toNat - '0'.toNat)
  else if 'a' ≤ c ∧ c ≤ 'f' then some (c.toNat - 'a'.toNat + 10)
  else if 'A' ≤ c ∧ c ≤ 'F' then some (c.toNat - 'A'.toNat + 10)
  else none

/-- Body of a JSON string literal (after the opening quote); returns the
decoded string and the remaining input.  Control characters are rejected, as
in strict `json.loads`. -/
def parseStrBody : List Char → List Char → Option (String × List Char)
  | [], _ => none
  | c :: rest, acc =>
    if c == '"' then some (String.mk acc, rest)
    else if c == '\\' then
      match rest with
      | [] => none
      | e :: rest2 =>
        if e == '"' then parseStrBody rest2 (acc ++ ['"'])
        else if e == '\\' then parseStrBody rest2 (acc ++ ['\\'])
        else if e == '/' then parseStrBody rest2 (acc ++ ['/'])
        else if e == 'n' then parseStrBody rest2 (acc ++ ['\n'])
        else if e == 't' then parseStrBody rest2 (acc ++ ['\t'])
        else if e == 'r' then parseStrBody rest2 (acc ++ ['\r'])
        else if e == 'b' then parseStrBody rest2 (acc ++ ['\x08'])
        else if e == 'f' then parseStrBody rest2 (acc ++ ['\x0c'])
        else if e == 'u' then
          match rest2 with
          | h1 :: h2 :: h3 :: h4 :: rest3 =>
            match hexDigitVal h1, hexDigitVal h2, hexDigitVal h3, hexDigitVal h4 with
            | some a, some b, some c2, some d =>
              parseStrBody rest3 (acc ++ [Char.ofNat (((a * 16 + b) * 16 + c2) * 16 + d)])
            | _, _, _, _ => none
          | _ => none
        else none
    else if c.toNat < 32 then none
    else parseStrBody rest (acc ++ [c])

/-- Consume a run of decimal digits, accumulating the value; also reports
whether at least one digit was read. -/
def digitsAux : List Char → Nat → Bool → Nat × Bool × List Char
  | [], n, seen => (n, seen, [])
  | c :: rest, n, seen =>
    if '0' ≤ c ∧ c ≤ '9' then digitsAux rest (n * 10 + (c.toNat - '0'.toNat)) true
    else (n, seen, c :: rest)

/-- Whether the input begins with a decimal digit (used to reject numbers
with leading zeros, as strict `json.loads` does). -/
def leadingDigit : List Char → Bool
  | [] => false
  | c :: _ => decide ('0' ≤ c ∧ c ≤ '9')

/-- Opening brace character (an object delimiter). -/
def lbrace : Char := Char.ofNat 123

/-- Closing brace character. -/
def rbrace : Char := Char.ofNat 125

mutual

/-- Recursive-descent parse of one JSON value, fuelled; models strict
`json.loads` on the fragment used by the program (no floats/exponents). -/
def parseVal : Nat → List Char → Option (Json × List Char)
  | 0, _ => none
  | Nat.succ fuel, cs =>
    match skipWs cs with
    | [] => none
    | c :: rest =>
      if c == lbrace then
        match skipWs rest with
        | c2 :: rest2 =>
          if c2 == rbrace then some (Json.obj [], rest2)
          else parseObjItems fuel (c2 :: rest2) []
        | [] => none
      else if c == '[' then
        match skipWs rest with
        | c2 :: rest2 =>
          if c2 == ']' then some (Json.arr [], rest2)
          else parseArrItems fuel (c2 :: rest2) []
        | [] => none
      else if c == '"' then
        match parseStrBody rest [] with
        | some (s, rest2) => some (Json.str s, rest2)
        | none => none
      else if c == 'n' then
        match rest with
        | 'u' :: 'l' :: 'l' :: rest2 => some (Json.null, rest2)
        | _ => none
      else if c == 't' then
        match rest with
        | 'r' :: 'u' :: 'e' :: rest2 => some (Json.bool true, rest2)
        | _ => none
      else if c == 'f' then
        match rest with
        | 'a' :: 'l' :: 's' :: 'e' :: rest2 => some (Json.bool false, rest2)
        | _ => none
      else if c == '-' then
        match rest with
        | d :: rest2 =>
          if '0' ≤ d ∧ d ≤ '9' then
            if d == '0' ∧ leadingDigit rest2 then none
            else
              match digitsAux (d :: rest2) 0 false with
              | (n, _, rest3) => some (Json.num (-(n : Int)), rest3)
          else none
        | [] => none
      else if '0' ≤ c ∧ c ≤ '9' then
        if c == '0' ∧ leadingDigit rest then none
        else
          match digitsAux (c :: rest) 0 false with
          | (n, _, rest3) => some (Json.num (n : Int), rest3)
      else none

/-- Elements of a non-empty array (positioned at the first element). -/
def parseArrItems : Nat → List Char → List Json → Option (Json × List Char)
  | 0, _, _ => none
  | Nat.succ fuel, cs, acc =>
    match parseVal fuel cs with
    | none => none
    | some (v, rest) =>
      match skipWs rest with
      | c :: rest2 =>
        if c == ',' then parseArrItems fuel rest2 (acc ++ [v])
        else if c == ']' then some (Json.arr (acc ++ [v]), rest2)
        else none
      | [] => none

/-- Members of a non-empty object (positioned at the first key). -/
def parseObjItems : Nat → List Char → List (String × Json) →
    Option (Json × List Char)
  | 0, _, _ => none
  | Nat.succ fuel, cs, acc =>
    match skipWs cs with
    | c :: rest =>
      if c == '"' then
        match parseStrBody rest [] with
        | none => none
        | some (k, rest2) =>
          match skipWs rest2 with
          | c2 :: rest3 =>
            if c2 == ':' then
              match parseVal fuel rest3 with
              | none => none
              | some (v, rest4) =>
                match skipWs rest4 with
                | c3 :: rest5 =>
                  if c3 == ',' then parseObjItems fuel rest5 (dinsert acc k v)
                  else if c3 == rbrace then
                    some (Json.obj (dinsert acc k v), rest5)
                  else none
                | [] => none
            else none
          | [] => none
      else none
    | [] => none

end

/-- Python's `json.loads`: parse one value and require only whitespace after
it.  The fuel `2 * length + 4` exceeds the recursion depth any input of this
length can force. -/
def json_loads (s : String) : Option Json :=
  match parseVal (2 * s.data.length + 4) s.data with
  | none => none
  | some (v, rest) => if (skipWs rest).isEmpty then some v else none

/-! Model of `json.dumps` (default options: `ensure_ascii=True`,
separators `", "` and `": "`) -/

/-- Lowercase hexadecimal digit. -/
def hexDigitChar (n : Nat) : Char :=
  if n < 10 then Char.ofNat ('0'.toNat + n) else Char.ofNat ('a'.toNat + n - 10)

/-- Four-digit lowercase hexadecimal rendering. -/
def hex4 (n : Nat) : String :=
  String.mk [hexDigitChar (n / 4096 % 16), hexDigitChar (n / 256 % 16),
    hexDigitChar (n / 16 % 16), hexDigitChar (n % 16)]

/-- Escaping of one character inside a `json.dumps` string (ASCII mode:
everything outside `0x20`–`0x7e` becomes a `\u` escape, non-BMP characters a
surrogate pair). -/
def escapeJsonChar (c : Char) : String :=
  if c == '"' then "\\\""
  else if c == '\\' then "\\\\"
  else if c == '\n' then "\\n"
  else if c == '\t' then "\\t"
  else if c == '\r' then "\\r"
  else if c == '\x08' then "\\b"
  else if c == '\x0c' then "\\f"
  else if c.toNat < 32 ∨ c.toNat > 126 then
    if c.toNat ≤ 65535 then "\\u" ++ hex4 c.toNat
    else "\\u" ++ hex4 (55296 + (c.toNat - 65536) / 1024) ++
      "\\u" ++ hex4 (56320 + (c.toNat - 65536) % 1024)
  else String.singleton c

/-- A `json.dumps` string literal. -/
def jsonQuote (s : String) : String :=
  "\"" ++ String.join (s.data.map escapeJsonChar) ++ "\""

mutual

/-- Python's `json.dumps` with its default separators. -/
def json_dumps : Json → String
  | Json.null => "null"
  | Json.bool true => "true"
  | Json.bool false => "false"
  | Json.num n => toString n
  | Json.str s => jsonQuote s
  | Json.arr xs => "[" ++ dumpsList xs ++ "]"
  | Json.obj kvs => "\x7b" ++ dumpsKVs kvs ++ "\x7d"

/-- Array elements joined by `", "`. -/
def dumpsList : List Json → String
  | [] => ""
  | [x] => json_dumps x
  | x :: xs => json_dumps x ++ ", " ++ dumpsList xs

/-- Object members joined by `", "` with `": "` after each key. -/
def dumpsKVs : List (String × Json) → String
  | [] => ""
  | [(k, v)] => jsonQuote k ++ ": " ++ json_dumps v
  | (k, v) :: kvs => jsonQuote k ++ ": " ++ json_dumps v ++ ", " ++ dumpsKVs kvs

end

/-! Python `str()` of parsed JSON values -/

/-- Python `repr` quoting of a string.  The repr escaping of quotes and
backslashes inside the string is not modelled; no value this program formats
contains them. -/
def pyQuote (s : String) : String := "\x27" ++ s ++ "\x27"

mutual

/-- Python `repr()` of a parsed JSON value (`str` of containers uses the
repr of their elements). -/
def pyRepr : Json → String
  | Json.null => "None"
  | Json.bool true => "True"
  | Json.bool false => "False"
  | Json.num n => toString n
  | Json.str s => pyQuote s
  | Json.arr xs => "[" ++ pyReprList xs ++ "]"
  | Json.obj kvs => "\x7b" ++ pyReprKVs kvs ++ "\x7d"

/-- List elements of a Python `repr`, joined by `", "`. -/
def pyReprList : List Json → String
  | [] => ""
  | [x] => pyRepr x
  | x :: xs => pyRepr x ++ ", " ++ pyReprList xs

/-- Dict members of a Python `repr`, joined by `", "`. -/
def pyReprKVs : List (String × Json) → String
  | [] => ""
  | [(k, v)] => pyQuote k ++ ": " ++ pyRepr v
  | (k, v) :: kvs => pyQuote k ++ ": " ++ pyRepr v ++ ", " ++ pyReprKVs kvs

end

/-- Python `str()` of a parsed JSON value. -/
def pyStr : Json → String
  | Json.str s => s
  | v => pyRepr v

/-! Exceptions the agent code can raise or catch -/

/-- The Python exceptions arising in the embedded code paths.  `toMsg` below
gives the `str()` of the exception as interpolated into f-strings (for
`jsonDecodeError` a representative decoder message is used; no claim depends
on its exact text). -/
inductive PyErr where
  | attributeError (typeName attr : String)
  | typeError (msg : String)
  | jsonDecodeError (msg : String)
  | toolError (msg : String)
deriving DecidableEq

/-- Python `str()` of an exception, as used in the source's f-strings. -/
def PyErr.toMsg : PyErr → String
  | PyErr.attributeError t a =>
    "\x27" ++ t ++ "\x27 object has no attribute \x27" ++ a ++ "\x27"
  | PyErr.typeError m => m
  | PyErr.jsonDecodeError m => m
  | PyErr.toolError m => m

/-- Python `value.get(key, default)`: succeeds on a dict, raises
`AttributeError` on every other value. -/
def pyGet (j : Json) (key : String) (dflt : Json) : Except PyErr Json :=
  match j with
  | Json.obj kvs => Except.ok ((dictFind kvs key).getD dflt)
  | v => Except.error (PyErr.attributeError (pyTypeName v) "get")

/-- Python `list(set(x))` as used on the trivia choices: reports whether the
conversion raises (`TypeError` for unhashable elements or a non-iterable
value); the resulting order is only printed, never stored. -/
def pySetOfOk (j : Json) : Except PyErr Unit :=
  match j with
  | Json.arr xs =>
    if xs.all pyHashable then Except.ok ()
    else Except.error (PyErr.typeError "unhashable type")
  | Json.str _ => Except.ok ()
  | Json.obj _ => Except.ok ()
  | v => Except.error (PyErr.typeError (pyTypeName v ++ " object is not iterable"))

/-! The agent's pure functions (src/agent_fun.py) -/

/-- Function `llm_json` from src/agent_fun.py.  The `chat` network call is an oracle
outcome: `Except.error e` models `chat` raising an exception whose `str()` is
`e`, `Except.ok content` models the model replying with
`resp["message"]["content"] = content`. -/
def llm_json (resp : Except String String) : Json :=
  match resp with
  | Except.error e =>
    Json.obj [("action", Json.str "final"),
      ("answer", Json.str ("Sorry, I had trouble reaching my brain: " ++ e))]
  | Except.ok content =>
    let txt := pyStrip content
    match json_loads txt with
    | some v => v
    | none => Json.obj [("action", Json.str "final"), ("answer", Json.str txt)]

/-- Function `to_plain_text` from src/agent_fun.py. -/
def to_plain_text : Json → String
  | Json.str s => pyStrip s
  | v => pyStrip (pyStr v)

/-- Function `summarize_tool_result` from src/agent_fun.py.  The result is `Except`
because the `.get` calls raise `AttributeError` when the payload parses to a
non-dict JSON value (the source does not guard against that). -/
def summarize_tool_result (tool_name : String) (payload : String) :
    Except PyErr String :=
  match json_loads payload with
  | none =>
    Except.ok ("The \x27" ++ tool_name ++ "\x27 tool returned: " ++ payload)
  | some data =>
    if tool_name == "weather" then do
      let desc ← pyGet data "description" (Json.str "unknown conditions")
      let temp ← pyGet data "temperature" (Json.str "??")
      Except.ok ("The current weather is " ++ pyStr desc ++
        " with a temperature of " ++ pyStr temp ++ "°C.")
    else if tool_name == "book" then do
      let title ← pyGet data "title" (Json.str "a great book")
      let author ← pyGet data "author" (Json.str "an author")
      Except.ok ("I found a book: \x27" ++ pyStr title ++ "\x27 by " ++
        pyStr author ++ ".")
    else if tool_name == "joke" then do
      let jokeText ← pyGet data "joke"
        (Json.str "Why don\x27t skeletons fight each other? They don\x27t have the guts!")
      Except.ok ("Here\x27s a joke: " ++ pyStr jokeText)
    else if tool_name == "dog" then
      Except.ok "I fetched a cute dog picture for you! 🐶"
    else if tool_name == "trivia" then do
      let question ← pyGet data "question" (Json.str "What is the meaning of life?")
      Except.ok ("Trivia question: " ++ pyStr question)
    else
      Except.ok ("Tool \x27" ++ tool_name ++ "\x27 returned: " ++ json_dumps data)

/-! The control loop (the body of `main` in src/agent_fun.py) -/

/-- One history entry (`{"role": ..., "content": ...}`). -/
structure Msg where
  role : String
  content : String
deriving DecidableEq

/-- State threaded through one user turn of the control loop.  `llmCount`
counts the `llm_json` decision evaluations, `calls` records the tool
invocations issued to the Tool Host (in order, with their arguments), `exn`
is the uncaught Python exception if one escaped, `responded` is `main`'s
`responded` flag. -/
structure TurnState where
  history : List Msg
  llmCount : Nat
  calls : List (String × Json)
  exn : Option PyErr
  responded : Bool

/-- Test `decision.get("action") == "final"` (Python `==` between the parsed value
and the string `"final"`). -/
def isFinalTag : Json → Bool
  | Json.str s => s == "final"
  | _ => false

/-- One iteration of `main`'s `for step in range(8)` body (lines 176-214).
`llm` is the model oracle indexed by the number of `llm_json` calls so far;
`tool` is the Tool Host oracle indexed by the number of tool invocations so
far, yielding the payload text `result.content[0].text` (`Except.ok`) or the
message of a raised exception (`Except.error`). -/
def stepBody (llm tool : Nat → Except String String) (names : List String)
    (st : TurnState) : TurnState :=
  let decision := llm_json (llm st.llmCount)
  let st1 : TurnState := { st with llmCount := st.llmCount + 1 }
  match pyGet decision "action" Json.null with
  | Except.error e => { st1 with exn := some e }
  | Except.ok tag =>
    if isFinalTag tag then
      match pyGet decision "answer" (Json.str "") with
      | Except.error e => { st1 with exn := some e }
      | Except.ok ans =>
        { st1 with
          history := st1.history ++ [⟨"assistant", to_plain_text ans⟩],
          responded := true }
    else
      match pyGet decision "action" (Json.str "") with
      | Except.error e => { st1 with exn := some e }
      | Except.ok act =>
        let tname := pyStrip (pyStr act)
        match pyGet decision "args" (Json.obj []) with
        | Except.error e => { st1 with exn := some e }
        | Except.ok args =>
          if tname == "" || !(names.contains tname) then
            { st1 with
              history := st1.history ++ [⟨"assistant", "Unknown tool: " ++ tname⟩],
              responded := true }
          else
            let st2 : TurnState := { st1 with calls := st1.calls ++ [(tname, args)] }
            match tool st1.calls.length with
            | Except.error e =>
              { st2 with
                history := st2.history ++
                  [⟨"user", "[Tool Error] Tool \x27" ++ tname ++ "\x27 failed: " ++ e⟩] }
            | Except.ok payload =>
              match summarize_tool_result tname payload with
              | Except.error e => { st2 with exn := some e }
              | Except.ok summary =>
                { st2 with
                  history := st2.history ++ [⟨"user", "[Tool Result] " ++ summary⟩] }

/-- Loop of `main`: the bounded decision loop: runs `stepBody` until a break (final
answer, unknown tool) or an uncaught exception, at most `fuel` times (`main`
uses `range(8)`). -/
def runLoop (llm tool : Nat → Except String String) (names : List String) :
    Nat → TurnState → TurnState
  | 0, st => st
  | Nat.succ n, st =>
    let st2 := stepBody llm tool names st
    if st2.responded || st2.exn.isSome then st2
    else runLoop llm tool names n st2

/-- The canned step-limit message (src/agent_fun.py line 218). -/
def couldNotFinishMsg : String :=
  "I tried several steps but couldn\x27t finish your request. Could you rephrase?"

/-- The general decision loop of one turn plus the `if not responded` epilogue
(lines 174-220): an uncaught exception skips the epilogue, a turn that used
all 8 steps without responding appends the canned message as an assistant
turn. -/
def runGeneralTurn (llm tool : Nat → Except String String) (names : List String)
    (hist : List Msg) : TurnState :=
  let st := runLoop llm tool names 8 ⟨hist, 0, [], none, false⟩
  if st.exn.isSome then st
  else if st.responded then st
  else { st with history := st.history ++ [⟨"assistant", couldNotFinishMsg⟩] }

/-- The special trivia handling (lines 142-171): everything inside the `try`
block, returning the summary string appended on success or the caught
exception.  The prints only display data; they matter here because an
exception they raise (`.get` on a non-dict, `.append` on a non-list,
`set()` of unhashables) skips the history append and lands in the `except`
arm. -/
def triviaProcess (toolResp : Except String String) : Except PyErr String := do
  let payload ← match toolResp with
    | Except.ok p => Except.ok p
    | Except.error e => Except.error (PyErr.toolError e)
  let data ← match json_loads payload with
    | some d => Except.ok d
    | none => Except.error (PyErr.jsonDecodeError "Expecting value")
  let _question ← pyGet data "question" (Json.str "No question received.")
  let choices ← pyGet data "incorrect_answers" (Json.arr [])
  let corr ← pyGet data "correct_answer" Json.null
  let choicesFull ← if truthy corr then
      match choices with
      | Json.arr xs => Except.ok (Json.arr (xs ++ [corr]))
      | v => Except.error (PyErr.attributeError (pyTypeName v) "append")
    else Except.ok choices
  let _ ← pySetOfOk choicesFull
  summarize_tool_result "trivia" payload

/-- The session-exit test (line 136): `not user_input or user_input.lower()
in {"exit", "quit"}`, applied to the stripped input. -/
def isExitInput (s : String) : Bool :=
  s == "" || pyLower s == "exit" || pyLower s == "quit"

/-- The trivia-keyword test (line 142): `"trivia" in user_input.lower()`,
applied to the stripped input. -/
def wantsTrivia (s : String) : Bool :=
  strContains (pyLower s) "trivia"

/-- Observable outcome of feeding one line of input to `main`'s `while`
body: whether the session ended (the `break`), the resulting history, how
many `llm_json` decision evaluations ran, which tool invocations were issued,
and the uncaught exception if one escaped the turn. -/
structure TurnOutcome where
  sessionEnded : Bool
  history : List Msg
  llmCount : Nat
  calls : List (String × Json)
  exn : Option PyErr

/-- One iteration of `main`'s `while True` body (lines 134-220) on the raw
input line: strip, exit test, append the user turn, the special trivia
branch, otherwise the general decision loop. -/
def handleInput (llm tool : Nat → Except String String) (names : List String)
    (hist : List Msg) (rawInput : String) : TurnOutcome :=
  let userInput := pyStrip rawInput
  if isExitInput userInput then ⟨true, hist, 0, [], none⟩
  else
    let hist1 := hist ++ [⟨"user", userInput⟩]
    if wantsTrivia userInput then
      match triviaProcess (tool 0) with
      | Except.ok summary =>
        ⟨false, hist1 ++ [⟨"user", "[Tool Result] " ++ summary⟩], 0,
          [("trivia", Json.obj [])], none⟩
      | Except.error e =>
        ⟨false, hist1 ++ [⟨"assistant", "Oops! Trivia failed: " ++ e.toMsg⟩], 0,
          [("trivia", Json.obj [])], none⟩
    else
      let st := runGeneralTurn llm tool names hist1
      ⟨false, st.history, st.llmCount, st.calls, st.exn⟩

/-- The tool names registered by src/server_fun.py's five `@mcp.tool()`
functions (FastMCP registers each under its function name); this is the set
`main` fetches at session start into `tool_index`. -/
def serverToolNames : List String :=
  ["get_weather", "book_recs", "random_joke", "random_dog", "trivia"]

/-- A decision value that `main`'s loop treats as a call of a known tool:
a dict whose `"action"` is not the string `"final"` and whose stripped
`str()` names a fetched tool. -/
def isKnownToolCall (names : List String) (d : Json) : Bool :=
  match d with
  | Json.obj kvs =>
    if isFinalTag ((dictFind kvs "action").getD Json.null) then false
    else
      let tname := pyStrip (pyStr ((dictFind kvs "action").getD (Json.str "")))
      !(tname == "") && names.contains tname
  | _ => false

/-! Helper lemmas -/

theorem strData_append (a b : String) : (a ++ b).data = a.data ++ b.data := by
  cases a; cases b; rfl

theorem listStartsWith_refl (l : List Char) : listStartsWith l l = true := by
  induction l with
  | nil => rfl
  | cons c rest ih => simp [listStartsWith, ih]

theorem listHasSub_self (l : List Char) : listHasSub l l = true := by
  cases l with
  | nil => rfl
  | cons c rest => simp [listHasSub, listStartsWith_refl]

theorem listHasSub_append_left (l hay : List Char) :
    listHasSub l (hay ++ l) = true := by
  induction hay with
  | nil => simpa using listHasSub_self l
  | cons c rest ih => simp [listHasSub, ih]

/-- A string contains its own suffix. -/
theorem strContains_append_self (a b : String) : strContains (a ++ b) b = true := by
  unfold strContains
  rw [strData_append]
  exact listHasSub_append_left b.data a.data

/-! Claim C1 -/

/-- C1 counterexample: the model output `" hi "` is not valid JSON, yet the
`FinalAnswer` produced by `llm_json` carries the stripped text `"hi"`, not
the raw output `" hi "`. -/
theorem C1_counterexample :
    json_loads " hi " = none ∧
    llm_json (Except.ok " hi ") =
      Json.obj [("action", Json.str "final"), ("answer", Json.str "hi")] ∧
    "hi" ≠ " hi " :=
  ⟨rfl, rfl, by decide⟩

/-- C1 (amended): for every model output whose stripped form is not valid
JSON, `llm_json` returns a mapping with action `"final"` whose answer equals
the model output stripped of leading and trailing whitespace. -/
theorem C1_malformed_output_becomes_final (content : String)
    (h : json_loads (pyStrip content) = none) :
    llm_json (Except.ok content) =
      Json.obj [("action", Json.str "final"),
        ("answer", Json.str (pyStrip content))] := by
  unfold llm_json
  dsimp only
  rw [h]

theorem C1_malformed_output_becomes_final_witness :
    json_loads (pyStrip "certainly, here you go!") = none ∧
    llm_json (Except.ok "certainly, here you go!") =
      Json.obj [("action", Json.str "final"),
        ("answer", Json.str (pyStrip "certainly, here you go!"))] :=
  ⟨rfl, C1_malformed_output_becomes_final "certainly, here you go!" rfl⟩

/-! Claim C5 -/

/-- C5: the scenario from the spec fails on the code.  With the decision
`{"action": "random_dog", "args": {}}` and a successful tool payload
`{"ok": true, "image": "<url>"}`, the control loop appends the generic
fallback summary (`summarize_tool_result` matches the name `"dog"`, but the
registered tool is named `random_dog`), not the fixed emoji sentence; the
emoji sentence is produced only for the unregistered name `"dog"`. -/
theorem C5_dog_turn_appends_generic_fallback :
    handleInput
      (fun k => if k == 0
        then Except.ok "\x7b\"action\": \"random_dog\", \"args\": \x7b\x7d\x7d"
        else Except.ok "\x7b\"action\": \"final\", \"answer\": \"done\"\x7d")
      (fun _ => Except.ok "\x7b\"ok\": true, \"image\": \"https://x.com/d.jpg\"\x7d")
      serverToolNames [] "show me a dog" =
      ⟨false,
       [⟨"user", "show me a dog"⟩,
        ⟨"user", "[Tool Result] Tool \x27random_dog\x27 returned: \x7b\"ok\": true, \"image\": \"https://x.com/d.jpg\"\x7d"⟩,
        ⟨"assistant", "done"⟩],
       2, [("random_dog", Json.obj [])], none⟩ ∧
    summarize_tool_result "random_dog" "\x7b\"ok\": true, \"image\": \"https://x.com/d.jpg\"\x7d" =
      Except.ok "Tool \x27random_dog\x27 returned: \x7b\"ok\": true, \"image\": \"https://x.com/d.jpg\"\x7d" ∧
    ("Tool \x27random_dog\x27 returned: \x7b\"ok\": true, \"image\": \"https://x.com/d.jpg\"\x7d" : String) ≠
      "I fetched a cute dog picture for you! 🐶" ∧
    summarize_tool_result "dog" "\x7b\"ok\": true, \"image\": \"https://x.com/d.jpg\"\x7d" =
      Except.ok "I fetched a cute dog picture for you! 🐶" :=
  ⟨rfl, rfl, by decide, rfl⟩

/-! Claim C6 -/

/-- C6 counterexample: a trivia payload holding `question`,
`incorrect_answers` and `correct_answer` whose question text carries an HTML
entity is summarized verbatim: the summary does not contain the decoded
question text and still contains the entity artifact. -/
theorem C6_counterexample :
    json_loads "\x7b\"question\": \"Tom &amp; Jerry?\", \"incorrect_answers\": [\"A\"], \"correct_answer\": \"B\"\x7d" =
      some (Json.obj [("question", Json.str "Tom &amp; Jerry?"),
        ("incorrect_answers", Json.arr [Json.str "A"]),
        ("correct_answer", Json.str "B")]) ∧
    summarize_tool_result "trivia"
      "\x7b\"question\": \"Tom &amp; Jerry?\", \"incorrect_answers\": [\"A\"], \"correct_answer\": \"B\"\x7d" =
      Except.ok "Trivia question: Tom &amp; Jerry?" ∧
    strContains "Trivia question: Tom &amp; Jerry?" "Tom & Jerry?" = false ∧
    strContains "Trivia question: Tom &amp; Jerry?" "&amp;" = true :=
  ⟨rfl, rfl, by decide, by decide⟩

/-- C6 (amended): for every trivia payload parsing to an object whose
`question` field is a string, the summary contains that question text
verbatim; `summarize_tool_result` performs no HTML-entity decoding (in the
running system the decoding happens upstream, in the trivia tool, before the
payload is built). -/
theorem C6_trivia_summary_verbatim (payload : String)
    (kvs : List (String × Json)) (q : String)
    (hp : json_loads payload = some (Json.obj kvs))
    (hq : dictFind kvs "question" = some (Json.str q)) :
    summarize_tool_result "trivia" payload = Except.ok ("Trivia question: " ++ q) ∧
    strContains ("Trivia question: " ++ q) q = true := by
  constructor
  · unfold summarize_tool_result
    rw [hp]
    simp only [pyGet, hq, pyStr]
    rfl
  · exact strContains_append_self "Trivia question: " q

theorem C6_trivia_summary_verbatim_witness :
    json_loads "\x7b\"question\": \"Q2\", \"incorrect_answers\": [], \"correct_answer\": \"A\"\x7d" =
      some (Json.obj [("question", Json.str "Q2"),
        ("incorrect_answers", Json.arr []), ("correct_answer", Json.str "A")]) ∧
    (summarize_tool_result "trivia"
        "\x7b\"question\": \"Q2\", \"incorrect_answers\": [], \"correct_answer\": \"A\"\x7d" =
      Except.ok ("Trivia question: " ++ "Q2") ∧
    strContains ("Trivia question: " ++ "Q2") "Q2" = true) :=
  ⟨rfl, C6_trivia_summary_verbatim _ _ "Q2" rfl rfl⟩

/-! Claim C8 -/

/-- C8: an input line that strips to the empty string or to `exit`/`quit`
(case-insensitively) ends the session at once: the history is untouched, no
model consultation runs and no tool call is issued. -/
theorem C8_exit_ends_session (llm tool : Nat → Except String String)
    (names : List String) (hist : List Msg) (input : String)
    (h : isExitInput (pyStrip input) = true) :
    handleInput llm tool names hist input = ⟨true, hist, 0, [], none⟩ := by
  unfold handleInput
  simp [h]

theorem C8_exit_ends_session_witness :
    isExitInput (pyStrip "  QUIT ") = true ∧
    handleInput (fun _ => Except.ok "x") (fun _ => Except.ok "x") serverToolNames
      [⟨"system", "S"⟩] "  QUIT " = ⟨true, [⟨"system", "S"⟩], 0, [], none⟩ :=
  ⟨rfl, C8_exit_ends_session _ _ _ _ _ rfl⟩

/-! Claim C10 -/

/-- C10: the model output `"5"` is valid JSON but not an object; `llm_json`
returns the parsed non-mapping value unchanged, and the control loop's
`.get` access on it raises an `AttributeError` that escapes the turn (the
history gains no entry beyond the user turn, and the canned epilogue never
runs). -/
theorem C10_nonmapping_decision_raises :
    json_loads "5" = some (Json.num 5) ∧
    llm_json (Except.ok "5") = Json.num 5 ∧
    handleInput (fun _ => Except.ok "5") (fun _ => Except.ok "\x7b\x7d")
      serverToolNames [] "hello" =
      ⟨false, [⟨"user", "hello"⟩], 1, [], some (PyErr.attributeError "int" "get")⟩ :=
  ⟨rfl, rfl, rfl⟩

/-! Loop invariant lemmas -/

theorem stepBody_llmCount (llm tool : Nat → Except String String)
    (names : List String) (st : TurnState) :
    (stepBody llm tool names st).llmCount = st.llmCount + 1 := by
  unfold stepBody
  dsimp only
  repeat first
  | rfl
  | split

theorem runLoop_llmCount_le (llm tool : Nat → Except String String)
    (names : List String) : ∀ (n : Nat) (st : TurnState),
    (runLoop llm tool names n st).llmCount ≤ st.llmCount + n := by
  intro n
  induction n with
  | zero => intro st; simp [runLoop]
  | succ n ih =>
    intro st
    unfold runLoop
    dsimp only
    split
    · rw [stepBody_llmCount]; omega
    · calc (runLoop llm tool names n (stepBody llm tool names st)).llmCount
          ≤ (stepBody llm tool names st).llmCount + n := ih _
        _ ≤ st.llmCount + (n + 1) := by rw [stepBody_llmCount]; omega

theorem runGeneralTurn_llmCount (llm tool : Nat → Except String String)
    (names : List String) (hist : List Msg) :
    (runGeneralTurn llm tool names hist).llmCount =
      (runLoop llm tool names 8 ⟨hist, 0, [], none, false⟩).llmCount := by
  unfold runGeneralTurn
  dsimp only
  repeat first
  | rfl
  | split

theorem runLoop_succ (llm tool : Nat → Except String String)
    (names : List String) (n : Nat) (st : TurnState) :
    runLoop llm tool names (n + 1) st =
      if (stepBody llm tool names st).responded || (stepBody llm tool names st).exn.isSome
      then stepBody llm tool names st
      else runLoop llm tool names n (stepBody llm tool names st) := rfl

theorem summarize_ok_of_obj (t p : String) (kvs : List (String × Json))
    (h : json_loads p = some (Json.obj kvs)) :
    ∃ s, summarize_tool_result t p = Except.ok s := by
  unfold summarize_tool_result
  rw [h]
  dsimp only
  repeat first
  | exact ⟨_, rfl⟩
  | split

/-- A step whose decision is a known-tool call adds exactly one history
entry and one issued tool call, and leaves `responded` and `exn` unchanged
(both tool success and tool failure are absorbed). -/
theorem stepBody_known (llm tool : Nat → Except String String)
    (names : List String) (st : TurnState)
    (hk : isKnownToolCall names (llm_json (llm st.llmCount)) = true)
    (hobj : ∀ p, tool st.calls.length = Except.ok p →
      ∃ kvs, json_loads p = some (Json.obj kvs)) :
    ∃ m c, stepBody llm tool names st =
      { st with
          history := st.history ++ [m],
          llmCount := st.llmCount + 1,
          calls := st.calls ++ [c] } := by
  cases hJ : llm_json (llm st.llmCount) with
  | null => rw [hJ] at hk; simp [isKnownToolCall] at hk
  | bool b => rw [hJ] at hk; simp [isKnownToolCall] at hk
  | num n => rw [hJ] at hk; simp [isKnownToolCall] at hk
  | str s => rw [hJ] at hk; simp [isKnownToolCall] at hk
  | arr xs => rw [hJ] at hk; simp [isKnownToolCall] at hk
  | obj kvs =>
    rw [hJ] at hk
    unfold isKnownToolCall at hk
    dsimp only at hk
    split at hk
    · exact absurd hk (by simp)
    · rw [Bool.and_eq_true] at hk
      obtain ⟨hk1, hk2⟩ := hk
      rename_i hnf
      unfold stepBody
      dsimp only
      rw [hJ]
      simp only [pyGet]
      rw [if_neg hnf]
      have hcond : ((pyStrip (pyStr ((dictFind kvs "action").getD (Json.str ""))) == "" ||
          !names.contains (pyStrip (pyStr ((dictFind kvs "action").getD (Json.str ""))))) = false) := by
        simp only [Bool.or_eq_false_iff]
        constructor
        · simpa using hk1
        · simpa using hk2
      rw [hcond]
      simp only [Bool.false_eq_true, if_false]
      cases hT : tool st.calls.length with
      | error e => exact ⟨_, _, rfl⟩
      | ok p =>
        dsimp only
        obtain ⟨kvs2, hp⟩ := hobj p hT
        obtain ⟨s, hs⟩ := summarize_ok_of_obj
          (pyStrip (pyStr ((dictFind kvs "action").getD (Json.str "")))) p kvs2 hp
        rw [hs]
        exact ⟨_, _, rfl⟩

/-- Running `n` known-tool-call decisions (with object payloads) never
responds, never raises, evaluates the model once per step and issues one
tool call per step. -/
theorem runLoop_known (llm tool : Nat → Except String String) (names : List String) :
    ∀ (n : Nat) (st : TurnState),
    st.responded = false → st.exn = none →
    (∀ k, k < n → isKnownToolCall names (llm_json (llm (st.llmCount + k))) = true) →
    (∀ i p, tool i = Except.ok p → ∃ kvs, json_loads p = some (Json.obj kvs)) →
    ∃ tail cs, runLoop llm tool names n st =
      { history := st.history ++ tail, llmCount := st.llmCount + n,
        calls := st.calls ++ cs, exn := none, responded := false } := by
  intro n
  induction n with
  | zero =>
    intro st hr he _ _
    refine ⟨[], [], ?_⟩
    cases st
    simp_all [runLoop]
  | succ n ih =>
    intro st hr he hk hobj
    have hk0 := hk 0 (Nat.succ_pos n)
    rw [Nat.add_zero] at hk0
    obtain ⟨m, c, hstep⟩ := stepBody_known llm tool names st hk0 (fun p hp => hobj _ p hp)
    rw [hr, he] at hstep
    unfold runLoop
    dsimp only
    rw [hstep]
    simp only [Option.isSome_none, Bool.or_false, Bool.false_eq_true, if_false]
    obtain ⟨tail, cs, hrest⟩ := ih
      ⟨st.history ++ [m], st.llmCount + 1, st.calls ++ [c], none, false⟩
      rfl rfl
      (fun k hlt => by
        dsimp only
        rw [Nat.add_assoc, Nat.add_comm 1 k]
        exact hk (k + 1) (by omega))
      hobj
    dsimp only at hrest
    refine ⟨m :: tail, c :: cs, ?_⟩
    rw [hrest]
    congr 1
    · simp
    · omega
    · simp

/-- An input whose lowercase form contains `trivia` is never the exit
condition. -/
theorem wantsTrivia_not_exit (s : String) (h : wantsTrivia s = true) :
    isExitInput s = false := by
  by_contra hne
  rw [Bool.not_eq_false] at hne
  unfold isExitInput at hne
  simp only [Bool.or_eq_true, beq_iff_eq] at hne
  unfold wantsTrivia at h
  rcases hne with (h1 | h2) | h3
  · rw [h1] at h
    exact absurd h (by decide)
  · rw [h2] at h
    exact absurd h (by decide)
  · rw [h3] at h
    exact absurd h (by decide)

/-! Claim C2 -/

/-- C2: whenever the model's decision names a tool outside the fetched tool
set (or strips to an empty name), the control loop ends the turn right
there: the only new history entry is the assistant-role `Unknown tool`
message, `responded` is set, the remaining loop iterations never run, and no
tool invocation is issued (`calls` is unchanged). -/
theorem C2_unknown_tool (llm tool : Nat → Except String String)
    (names : List String) (st : TurnState) (n : Nat)
    (kvs : List (String × Json)) (j : Json)
    (hd : llm_json (llm st.llmCount) = Json.obj kvs)
    (hj : dictFind kvs "action" = some j)
    (hnf : isFinalTag j = false)
    (hbad : (pyStrip (pyStr j) == "" || !(names.contains (pyStrip (pyStr j)))) = true) :
    runLoop llm tool names (n + 1) st =
      { st with
          llmCount := st.llmCount + 1,
          history := st.history ++ [⟨"assistant", "Unknown tool: " ++ pyStrip (pyStr j)⟩],
          responded := true } ∧
    (runLoop llm tool names (n + 1) st).calls = st.calls := by
  have hstep : stepBody llm tool names st =
      { st with
          llmCount := st.llmCount + 1,
          history := st.history ++ [⟨"assistant", "Unknown tool: " ++ pyStrip (pyStr j)⟩],
          responded := true } := by
    unfold stepBody
    dsimp only
    rw [hd]
    simp [pyGet, hj, hnf, hbad]
    intro h1 h2
    simp [h1, h2] at hbad
  have hloop : runLoop llm tool names (n + 1) st =
      { st with
          llmCount := st.llmCount + 1,
          history := st.history ++ [⟨"assistant", "Unknown tool: " ++ pyStrip (pyStr j)⟩],
          responded := true } := by
    unfold runLoop
    dsimp only
    rw [hstep]
    simp
  exact ⟨hloop, by rw [hloop]⟩

theorem C2_unknown_tool_witness :
    runLoop (fun _ => Except.ok "\x7b\"action\": \"zzz\", \"args\": \x7b\x7d\x7d")
      (fun _ => Except.ok "\x7b\x7d") serverToolNames 8
      ⟨[⟨"user", "hello"⟩], 0, [], none, false⟩ =
      ⟨[⟨"user", "hello"⟩, ⟨"assistant", "Unknown tool: zzz"⟩], 1, [], none, true⟩ ∧
    (runLoop (fun _ => Except.ok "\x7b\"action\": \"zzz\", \"args\": \x7b\x7d\x7d")
      (fun _ => Except.ok "\x7b\x7d") serverToolNames 8
      ⟨[⟨"user", "hello"⟩], 0, [], none, false⟩).calls = [] :=
  C2_unknown_tool (fun _ => Except.ok "\x7b\"action\": \"zzz\", \"args\": \x7b\x7d\x7d")
    (fun _ => Except.ok "\x7b\x7d") serverToolNames
    ⟨[⟨"user", "hello"⟩], 0, [], none, false⟩ 7
    [("action", Json.str "zzz"), ("args", Json.obj [])] (Json.str "zzz")
    rfl rfl rfl rfl

/-! Claim C3 -/

/-- C3: over every input, oracle behaviour, tool set and starting history,
one call of `main`'s turn body evaluates `llm_json` at most 8 times. -/
theorem C3_at_most_eight_llm_calls (llm tool : Nat → Except String String)
    (names : List String) (hist : List Msg) (input : String) :
    (handleInput llm tool names hist input).llmCount ≤ 8 := by
  unfold handleInput
  dsimp only
  split
  · simp
  · split
    · split <;> simp
    · have h := runLoop_llmCount_le llm tool names 8
        ⟨hist ++ [⟨"user", pyStrip input⟩], 0, [], none, false⟩
      have h2 := runGeneralTurn_llmCount llm tool names (hist ++ [⟨"user", pyStrip input⟩])
      dsimp only at h
      dsimp only
      rw [h2]
      omega

/-! Claim C4 -/

/-- C4: when the decision names a known tool and the tool invocation raises,
the control loop catches the exception: the step appends exactly the
error-tagged `[Tool Error]` history entry, records the issued call, keeps
`exn = none` (nothing propagates past the loop, so the session survives) and
`responded = false`, and the loop goes on to its next iteration. -/
theorem C4_tool_failure_caught (llm tool : Nat → Except String String)
    (names : List String) (st : TurnState) (n : Nat) (e : String)
    (hk : isKnownToolCall names (llm_json (llm st.llmCount)) = true)
    (ht : tool st.calls.length = Except.error e)
    (hr : st.responded = false) (he : st.exn = none) :
    ∃ tname args,
      stepBody llm tool names st =
        { st with
            llmCount := st.llmCount + 1,
            calls := st.calls ++ [(tname, args)],
            history := st.history ++
              [⟨"user", "[Tool Error] Tool \x27" ++ tname ++ "\x27 failed: " ++ e⟩] } ∧
      (stepBody llm tool names st).exn = none ∧
      (stepBody llm tool names st).responded = false ∧
      runLoop llm tool names (n + 1) st =
        runLoop llm tool names n (stepBody llm tool names st) := by
  cases hJ : llm_json (llm st.llmCount) with
  | null => rw [hJ] at hk; simp [isKnownToolCall] at hk
  | bool b => rw [hJ] at hk; simp [isKnownToolCall] at hk
  | num m => rw [hJ] at hk; simp [isKnownToolCall] at hk
  | str s => rw [hJ] at hk; simp [isKnownToolCall] at hk
  | arr xs => rw [hJ] at hk; simp [isKnownToolCall] at hk
  | obj kvs =>
    rw [hJ] at hk
    unfold isKnownToolCall at hk
    dsimp only at hk
    split at hk
    · exact absurd hk (by simp)
    · rw [Bool.and_eq_true] at hk
      obtain ⟨hk1, hk2⟩ := hk
      rename_i hnf
      have hstep : stepBody llm tool names st =
          { st with
              llmCount := st.llmCount + 1,
              calls := st.calls ++
                [(pyStrip (pyStr ((dictFind kvs "action").getD (Json.str ""))),
                  (dictFind kvs "args").getD (Json.obj []))],
              history := st.history ++
                [⟨"user", "[Tool Error] Tool \x27" ++
                  pyStrip (pyStr ((dictFind kvs "action").getD (Json.str ""))) ++
                  "\x27 failed: " ++ e⟩] } := by
        unfold stepBody
        dsimp only
        rw [hJ]
        simp only [pyGet]
        rw [if_neg hnf]
        have hcond : ((pyStrip (pyStr ((dictFind kvs "action").getD (Json.str ""))) == "" ||
            !names.contains (pyStrip (pyStr ((dictFind kvs "action").getD (Json.str ""))))) = false) := by
          simp only [Bool.or_eq_false_iff]
          exact ⟨by simpa using hk1, by simpa using hk2⟩
        rw [hcond]
        simp only [Bool.false_eq_true, if_false]
        rw [ht]
      refine ⟨pyStrip (pyStr ((dictFind kvs "action").getD (Json.str ""))),
        (dictFind kvs "args").getD (Json.obj []), hstep, ?_, ?_, ?_⟩
      · rw [hstep]; exact he
      · rw [hstep]; exact hr
      · rw [runLoop_succ, hstep, hr, he]
        simp

theorem C4_tool_failure_caught_witness :
    ∃ tname args,
      stepBody (fun _ => Except.ok "\x7b\"action\": \"trivia\", \"args\": \x7b\x7d\x7d")
        (fun _ => Except.error "boom") serverToolNames
        ⟨[⟨"user", "hi"⟩], 0, [], none, false⟩ =
        ⟨[⟨"user", "hi"⟩] ++
          [⟨"user", "[Tool Error] Tool \x27" ++ tname ++ "\x27 failed: " ++ "boom"⟩],
         1, [(tname, args)], none, false⟩ ∧
      (stepBody (fun _ => Except.ok "\x7b\"action\": \"trivia\", \"args\": \x7b\x7d\x7d")
        (fun _ => Except.error "boom") serverToolNames
        ⟨[⟨"user", "hi"⟩], 0, [], none, false⟩).exn = none ∧
      (stepBody (fun _ => Except.ok "\x7b\"action\": \"trivia\", \"args\": \x7b\x7d\x7d")
        (fun _ => Except.error "boom") serverToolNames
        ⟨[⟨"user", "hi"⟩], 0, [], none, false⟩).responded = false ∧
      runLoop (fun _ => Except.ok "\x7b\"action\": \"trivia\", \"args\": \x7b\x7d\x7d")
        (fun _ => Except.error "boom") serverToolNames 1
        ⟨[⟨"user", "hi"⟩], 0, [], none, false⟩ =
      runLoop (fun _ => Except.ok "\x7b\"action\": \"trivia\", \"args\": \x7b\x7d\x7d")
        (fun _ => Except.error "boom") serverToolNames 0
        (stepBody (fun _ => Except.ok "\x7b\"action\": \"trivia\", \"args\": \x7b\x7d\x7d")
          (fun _ => Except.error "boom") serverToolNames
          ⟨[⟨"user", "hi"⟩], 0, [], none, false⟩) :=
  C4_tool_failure_caught (fun _ => Except.ok "\x7b\"action\": \"trivia\", \"args\": \x7b\x7d\x7d")
    (fun _ => Except.error "boom") serverToolNames
    ⟨[⟨"user", "hi"⟩], 0, [], none, false⟩ 0 "boom" rfl rfl rfl rfl

/-! Claim C7 -/

/-- C7: when a turn's 8 decision evaluations all come back as tool calls on
known tools (with tool payloads that parse to objects, so every evaluation
completes) and none is a final answer, the turn ends right after the 8th
evaluation with the fixed `couldn't finish` message appended to history as an
assistant-role entry and no exception. -/
theorem C7_step_limit (llm tool : Nat → Except String String)
    (names : List String) (hist : List Msg) (input : String)
    (hexit : isExitInput (pyStrip input) = false)
    (htr : wantsTrivia (pyStrip input) = false)
    (hk : ∀ k, k < 8 → isKnownToolCall names (llm_json (llm k)) = true)
    (hobj : ∀ i p, tool i = Except.ok p → ∃ kvs, json_loads p = some (Json.obj kvs)) :
    ∃ tail cs, handleInput llm tool names hist input =
      ⟨false,
       (hist ++ [⟨"user", pyStrip input⟩]) ++ tail ++ [⟨"assistant", couldNotFinishMsg⟩],
       8, cs, none⟩ := by
  obtain ⟨tail, cs, hloop⟩ := runLoop_known llm tool names 8
    ⟨hist ++ [⟨"user", pyStrip input⟩], 0, [], none, false⟩ rfl rfl
    (fun k hlt => by simpa using hk k hlt) hobj
  dsimp only at hloop
  refine ⟨tail, cs, ?_⟩
  unfold handleInput
  dsimp only
  rw [hexit]
  simp only [Bool.false_eq_true, if_false]
  rw [htr]
  simp only [Bool.false_eq_true, if_false]
  unfold runGeneralTurn
  dsimp only
  rw [hloop]
  simp

theorem C7_step_limit_witness :
    ∃ tail cs,
      handleInput (fun _ => Except.ok "\x7b\"action\": \"trivia\", \"args\": \x7b\x7d\x7d")
        (fun _ => Except.ok "\x7b\x7d") serverToolNames [] "hello" =
      ⟨false,
       ([] ++ [⟨"user", pyStrip "hello"⟩]) ++ tail ++ [⟨"assistant", couldNotFinishMsg⟩],
       8, cs, none⟩ :=
  C7_step_limit (fun _ => Except.ok "\x7b\"action\": \"trivia\", \"args\": \x7b\x7d\x7d")
    (fun _ => Except.ok "\x7b\x7d") serverToolNames [] "hello" rfl rfl
    (fun _ _ => rfl)
    (fun _ p hp => by
      cases hp
      exact ⟨[], rfl⟩)

/-! Claim C9 -/

/-- C9: every input containing `trivia` (case-insensitively) bypasses the
general decision loop entirely — no `llm_json` evaluation runs and exactly
one trivia tool invocation is issued, whether or not the trivia handling
succeeds — and the session neither ends nor raises.  When the handling
succeeds the only history entry added after the user's turn is a user-role
`[Tool Result]` entry (no assistant-role final answer is appended); when the
trivia tool call or its processing fails, the caught exception is appended
as the assistant-role `Oops!` entry instead. -/
theorem C9_trivia_bypass (llm tool : Nat → Except String String)
    (names : List String) (hist : List Msg) (input : String)
    (ht : wantsTrivia (pyStrip input) = true) :
    (handleInput llm tool names hist input).llmCount = 0 ∧
    (handleInput llm tool names hist input).calls = [("trivia", Json.obj [])] ∧
    (handleInput llm tool names hist input).sessionEnded = false ∧
    (handleInput llm tool names hist input).exn = none ∧
    (∀ summary, triviaProcess (tool 0) = Except.ok summary →
      (handleInput llm tool names hist input).history =
        hist ++ [⟨"user", pyStrip input⟩, ⟨"user", "[Tool Result] " ++ summary⟩]) ∧
    (∀ e, triviaProcess (tool 0) = Except.error e →
      (handleInput llm tool names hist input).history =
        hist ++ [⟨"user", pyStrip input⟩,
          ⟨"assistant", "Oops! Trivia failed: " ++ e.toMsg⟩]) := by
  unfold handleInput
  dsimp only
  rw [wantsTrivia_not_exit _ ht]
  simp only [Bool.false_eq_true, if_false]
  rw [ht]
  simp only [if_true]
  cases hp : triviaProcess (tool 0) with
  | ok summary =>
    refine ⟨rfl, rfl, rfl, rfl, ?_, ?_⟩
    · intro s hs
      injection hs with hss
      subst hss
      simp
    · intro e he
      simp at he
  | error e =>
    refine ⟨rfl, rfl, rfl, rfl, ?_, ?_⟩
    · intro s hs
      simp at hs
    · intro e2 he
      injection he with hee
      subst hee
      simp

theorem C9_trivia_bypass_witness :
    wantsTrivia (pyStrip "play Trivia now") = true ∧
    triviaProcess (Except.ok "\x7b\"ok\": true, \"question\": \"Q1\"\x7d") =
      Except.ok "Trivia question: Q1" ∧
    (handleInput (fun _ => Except.ok "IGNORED")
      (fun _ => Except.ok "\x7b\"ok\": true, \"question\": \"Q1\"\x7d") serverToolNames
      [] "play Trivia now").llmCount = 0 ∧
    (handleInput (fun _ => Except.ok "IGNORED")
      (fun _ => Except.ok "\x7b\"ok\": true, \"question\": \"Q1\"\x7d") serverToolNames
      [] "play Trivia now").calls = [("trivia", Json.obj [])] ∧
    (handleInput (fun _ => Except.ok "IGNORED")
      (fun _ => Except.ok "\x7b\"ok\": true, \"question\": \"Q1\"\x7d") serverToolNames
      [] "play Trivia now").history =
      [] ++ [⟨"user", pyStrip "play Trivia now"⟩,
        ⟨"user", "[Tool Result] " ++ "Trivia question: Q1"⟩] := by
  obtain ⟨h1, h2, _, _, h5, _⟩ := C9_trivia_bypass (fun _ => Except.ok "IGNORED")
    (fun _ => Except.ok "\x7b\"ok\": true, \"question\": \"Q1\"\x7d") serverToolNames
    [] "play Trivia now" rfl
  exact ⟨rfl, rfl, h1, h2, h5 "Trivia question: Q1" rfl⟩
